import Mathlib

/-!
Shallow embedding of the two-tier chat application:
- `db-api` (persistence API): `crud.py`, `main.py`, `models.py`, `schemas.py`
- `chat-ui` (UI service): `main.py`

The relational store is modelled as in-memory lists in insertion order
(`DB.chats`, `DB.messages`); auto-generated UUID primary keys are modelled
as fresh natural numbers drawn from counters.  SQLAlchemy's `.first()` on a
filtered query is `List.filter` followed by `head?`, and the ORM
relationship `Chat.messages` is the filter of the message table by
`owner_id`, in insertion order.  Python code paths that raise an uncaught
exception (`KeyError`, `TypeError`, `IndexError`) are modelled as explicit
failure results (`none` / `.crash`).
-/

namespace ChatApp

/-! ### Configuration (chat-ui `Settings`, default values) -/

def user_role : String := "user"

def assistant_role : String := "assistant"

def system_role : String := "system"

def system_message : String := "You are a helpful AI assistant."

def opening_message : String :=
  "Hi, how can I help you? I might take about 30 seconds for lengthy answers!"

/-! ### Data model (db-api `schemas.py` and `models.py`) -/

/-- Pydantic schema `MessageCreate`: body of a message-creating request. -/
structure MessageCreate where
  content : String
  role : String
  session_id : String
deriving DecidableEq, Repr

/-- A row of the `messages` table (= Pydantic schema `Message`). -/
structure Message where
  id : Nat
  content : String
  role : String
  session_id : String
  owner_id : Nat
deriving DecidableEq, Repr

/-- A row of the `chats` table (without the ORM `messages` relationship). -/
structure Chat where
  id : Nat
  username : String
  session_id : String
deriving DecidableEq, Repr

/-- Pydantic schema `ChatCreate`: body of the create-chat request. -/
structure ChatCreate where
  username : String
  messages : List MessageCreate
  session_id : String
deriving DecidableEq, Repr

/-- The relational store: both tables in insertion order, plus counters
supplying the auto-generated primary keys. -/
@[ext]
structure DB where
  chats : List Chat
  messages : List Message
  nextChatId : Nat
  nextMessageId : Nat
deriving DecidableEq, Repr

/-- The ORM relationship `Chat.messages`: all message rows whose
`owner_id` is the chat's id, in insertion order. -/
def chat_messages (db : DB) (chat_id : Nat) : List Message :=
  db.messages.filter fun m => m.owner_id == chat_id

/-! ### crud.py -/

/-- Embeds `crud.get_chat`: filter by id and session_id, take `.first()`. -/
def get_chat (db : DB) (chat_id : Nat) (session_id : String) : Option Chat :=
  (db.chats.filter fun c => c.id == chat_id && c.session_id == session_id).head?

/-- Embeds `crud.get_chat_by_username`: filter by username and session_id, `.first()`. -/
def get_chat_by_username (db : DB) (username : String) (session_id : String) :
    Option Chat :=
  (db.chats.filter fun c => c.username == username && c.session_id == session_id).head?

/-- Embeds `crud.create_chat_message`: unconditionally insert a message row built
from the request body (`**chat_message.dict()`) with `owner_id = chat_id`;
no existence or session-match check against the target chat. -/
def create_chat_message (db : DB) (chat_id : Nat) (m : MessageCreate) :
    DB × Message :=
  let msg : Message :=
    { id := db.nextMessageId, content := m.content, role := m.role,
      session_id := m.session_id, owner_id := chat_id }
  ({ db with messages := db.messages ++ [msg],
             nextMessageId := db.nextMessageId + 1 }, msg)

/-- Embeds `crud.create_chat`: raise HTTP 400 when a chat with this username and
session already exists; otherwise insert the chat row, then insert each
supplied initial message via `create_chat_message`, in order. -/
def create_chat (db : DB) (chat : ChatCreate) : Except Nat (DB × Chat) :=
  if (get_chat_by_username db chat.username chat.session_id).isSome then
    .error 400
  else
    let c : Chat :=
      { id := db.nextChatId, username := chat.username,
        session_id := chat.session_id }
    let db1 : DB :=
      { db with chats := db.chats ++ [c], nextChatId := db.nextChatId + 1 }
    let db2 := chat.messages.foldl (fun d m => (create_chat_message d c.id m).1) db1
    .ok (db2, c)

/-! ### db-api main.py endpoints -/

/-- Response model `schemas.Chat`: the chat row together with its
populated `messages` relationship. -/
structure ChatOut where
  id : Nat
  username : String
  session_id : String
  messages : List Message
deriving DecidableEq, Repr

/-- Serialization of an ORM `Chat` through the `schemas.Chat` response model. -/
def serialize_chat (db : DB) (c : Chat) : ChatOut :=
  { id := c.id, username := c.username, session_id := c.session_id,
    messages := chat_messages db c.id }

/-- POST `/chats`: `crud.create_chat`, serialized through `schemas.Chat`. -/
def api_create_chat (db : DB) (chat : ChatCreate) : Except Nat (DB × ChatOut) :=
  match create_chat db chat with
  | .error e => .error e
  | .ok (db2, c) => .ok (db2, serialize_chat db2 c)

/-- GET `/chats/{chat_id}`: 400 when the `X-Session-ID` header is absent
(or empty: Python `if not session_id`), otherwise the filtered lookup,
which may be empty (`None` serialized as an absent chat). -/
def api_get_chat_by_id (db : DB) (hdr : Option String) (chat_id : Nat) :
    Except Nat (Option ChatOut) :=
  match hdr with
  | none => .error 400
  | some s =>
      if s = "" then .error 400
      else .ok ((get_chat db chat_id s).map (serialize_chat db))

/-- GET `/chats/username/{username}`: same header rule, keyed by username. -/
def api_get_chat_by_username (db : DB) (hdr : Option String) (username : String) :
    Except Nat (Option ChatOut) :=
  match hdr with
  | none => .error 400
  | some s =>
      if s = "" then .error 400
      else .ok ((get_chat_by_username db username s).map (serialize_chat db))

/-- POST `/chats/{chat_id}/message`: `crud.create_chat_message`, no checks. -/
def api_create_chat_message (db : DB) (chat_id : Nat) (m : MessageCreate) :
    DB × Message :=
  create_chat_message db chat_id m

/-! ### chat-ui main.py -/

/-- The dependency `get_session_id`: reuse the cookie's session id when
present and non-empty, otherwise a freshly generated uuid4 string. -/
def get_session_id (cookie : Option String) (fresh : String) : String :=
  match cookie with
  | none => fresh
  | some s => if s = "" then fresh else s

/-- First initial message of a new chat: the fixed system instruction. -/
def sys_init_msg (session_id : String) : MessageCreate :=
  { content := system_message, role := system_role, session_id := session_id }

/-- Second initial message of a new chat: the fixed opening assistant greeting. -/
def opening_init_msg (session_id : String) : MessageCreate :=
  { content := opening_message, role := assistant_role, session_id := session_id }

/-- POST `/chats` on the UI: ask the db-api to create a chat seeded with the
two initial messages; on a 400 conflict fall back to fetching the existing
chat by username (with the session id in the `X-Session-ID` header); redirect
to `chat["id"]`.  `none` stands for the uncaught Python `TypeError` when the
fallback fetch yields no chat. -/
def ui_create_chat (db : DB) (username : String) (session_id : String) :
    DB × Option Nat :=
  match api_create_chat db
      { username := username,
        messages := [sys_init_msg session_id, opening_init_msg session_id],
        session_id := session_id } with
  | .ok (db2, out) => (db2, some out.id)
  | .error _ =>
      match api_get_chat_by_username db (some session_id) username with
      | .ok (some out) => (db, some out.id)
      | _ => (db, none)

/-- The `prettify` dict of `get_chat_page`, as a partial lookup: the Python
dict raises `KeyError` (= `none`) on any role outside the three configured
labels. -/
def prettify (username : String) (role : String) : Option String :=
  if role = user_role then some username
  else if role = assistant_role then some "JorisBot"
  else if role = system_role then some system_role
  else none

/-- A message as rendered on the chat page: content plus display name. -/
structure RenderedMessage where
  content : String
  role : String
deriving DecidableEq, Repr

/-- The rendered chat page context: display messages plus the chat id. -/
structure ChatPage where
  messages : List RenderedMessage
  chat_id : Nat
deriving DecidableEq, Repr

/-- The body of the list comprehension in `get_chat_page`, run over the
already-filtered (non-system) messages; `none` is the uncaught `KeyError`
from the `prettify` dict. -/
def render_list (username : String) : List Message → Option (List RenderedMessage)
  | [] => some []
  | m :: ms =>
      match prettify username m.role with
      | none => none
      | some r =>
          match render_list username ms with
          | none => none
          | some rest => some ({ content := m.content, role := r } :: rest)

/-- The list comprehension of `get_chat_page`: drop system-role messages,
then prettify each remaining role. -/
def render_messages (username : String) (msgs : List Message) :
    Option (List RenderedMessage) :=
  render_list username (msgs.filter fun m => m.role != system_role)

/-- GET `/chats/{chat_id}` on the UI: fetch the chat from the db-api with
the session header, prettify and filter the history, render the template
with the URL's `chat_id`.  `none` stands for the uncaught Python errors
when the fetch yields no chat or a role is unmapped. -/
def get_chat_page (db : DB) (chat_id : Nat) (session_id : String) :
    Option ChatPage :=
  match api_get_chat_by_id db (some session_id) chat_id with
  | .ok (some chat) =>
      (render_messages chat.username chat.messages).map
        fun ms => { messages := ms, chat_id := chat_id }
  | _ => none

/-- Outcome of the external completion call: a list of choice contents,
or a timeout (`httpx.TimeoutException`). -/
inductive LMResult where
  | ok (choices : List String)
  | timeout
deriving DecidableEq, Repr

/-- Observable outcome of POST `/generate/{chat_id}`: the redirect, the
503 timeout response, or an uncaught Python exception (500). -/
inductive GenResult where
  | redirect (chat_id : Nat)
  | error503
  | crash
deriving DecidableEq, Repr

/-- POST `/generate/{chat_id}` on the UI: (1) append the user message,
(2) fetch the full history, (3) call the completion endpoint on it
(`lm`, abstracting the 30-second-bounded HTTP call), on timeout raise 503;
(4) on success append an assistant message with the first choice's content,
(5) redirect to the chat page. -/
def create_generation (db : DB) (chat_id : Nat) (prompt : String)
    (session_id : String) (lm : List Message → LMResult) : DB × GenResult :=
  let db1 :=
    (api_create_chat_message db chat_id
      { content := prompt, role := user_role, session_id := session_id }).1
  match api_get_chat_by_id db1 (some session_id) chat_id with
  | .error _ => (db1, .crash)
  | .ok none => (db1, .crash)
  | .ok (some chat) =>
      match lm chat.messages with
      | .timeout => (db1, .error503)
      | .ok choices =>
          match choices.head? with
          | none => (db1, .crash)
          | some g =>
              let db2 :=
                (api_create_chat_message db1 chat_id
                  { content := g, role := assistant_role,
                    session_id := session_id }).1
              (db2, .redirect chat_id)

/-! ### Invariants and derived notions -/

/-- Well-formedness of the store: chat rows are distinct, primary keys are
distinct and below the counter, message foreign keys point below the chat
counter, and at most one chat exists per (username, session) pair. -/
def WF (db : DB) : Prop :=
  db.chats.Nodup
  ∧ (db.chats.map Chat.id).Nodup
  ∧ (∀ c ∈ db.chats, c.id < db.nextChatId)
  ∧ (∀ m ∈ db.messages, m.owner_id < db.nextChatId)
  ∧ (∀ c ∈ db.chats, ∀ c' ∈ db.chats,
      c.username = c'.username → c.session_id = c'.session_id → c = c')

/-- Number of chat rows stored for a given (username, session) pair. -/
def countPair (db : DB) (username : String) (session_id : String) : Nat :=
  (db.chats.filter fun c => c.username == username && c.session_id == session_id).length

/-- The message rows created by `create_chat` for the supplied initial
messages, in order, with their generated ids starting at `start`. -/
def created_messages (start : Nat) (chat_id : Nat) :
    List MessageCreate → List Message
  | [] => []
  | m :: ms =>
      { id := start, content := m.content, role := m.role,
        session_id := m.session_id, owner_id := chat_id }
        :: created_messages (start + 1) chat_id ms

/-- Denormalization invariant: every message's session id equals the
session id of its owning chat. -/
def MsgSessionInv (db : DB) : Prop :=
  ∀ m ∈ db.messages, ∀ c ∈ db.chats, c.id = m.owner_id →
    m.session_id = c.session_id

instance (db : DB) : Decidable (WF db) := by
  unfold WF; exact inferInstance

instance (db : DB) : Decidable (MsgSessionInv db) := by
  unfold MsgSessionInv; exact inferInstance

/-! ### Helper lemmas -/

theorem head?_some_mem {α : Type} {l : List α} {c : α} (h : l.head? = some c) :
    c ∈ l := by
  cases l with
  | nil => cases h
  | cons a t =>
      simp only [List.head?_cons, Option.some.injEq] at h
      exact h ▸ List.mem_cons_self a t

/-- A nodup list whose only element satisfying `p` is `c` filters to `[c]`. -/
theorem filter_eq_singleton {α : Type} {l : List α} {p : α → Bool} {c : α}
    (hnd : l.Nodup) (hc : c ∈ l) (hpc : p c = true)
    (huniq : ∀ x ∈ l, p x = true → x = c) : l.filter p = [c] := by
  induction l with
  | nil => cases hc
  | cons a t ih =>
      rcases List.nodup_cons.mp hnd with ⟨ha, hnt⟩
      by_cases hpa : p a = true
      · have hac : a = c := huniq a (List.mem_cons_self a t) hpa
        subst hac
        have ht : t.filter p = [] := by
          refine List.filter_eq_nil_iff.mpr fun x hx hpx => ?_
          exact ha (huniq x (List.mem_cons_of_mem _ hx) hpx ▸ hx)
        simp [List.filter_cons, hpa, ht]
      · have hct : c ∈ t := by
          rcases List.mem_cons.mp hc with h | h
          · exact absurd (h ▸ hpc) hpa
          · exact h
        have ht := ih hnt hct fun x hx hpx => huniq x (List.mem_cons_of_mem _ hx) hpx
        simp [List.filter_cons, hpa, ht]

/-- Unpacking a successful `crud.get_chat`. -/
theorem get_chat_eq_some {db : DB} {i : Nat} {s : String} {c : Chat}
    (h : get_chat db i s = some c) :
    c ∈ db.chats ∧ c.id = i ∧ c.session_id = s := by
  have hmem := head?_some_mem h
  refine ⟨List.mem_of_mem_filter hmem, ?_⟩
  have := List.of_mem_filter hmem
  simpa using this

/-- Unpacking a successful `crud.get_chat_by_username`. -/
theorem get_chat_by_username_eq_some {db : DB} {u s : String} {c : Chat}
    (h : get_chat_by_username db u s = some c) :
    c ∈ db.chats ∧ c.username = u ∧ c.session_id = s := by
  have hmem := head?_some_mem h
  refine ⟨List.mem_of_mem_filter hmem, ?_⟩
  have := List.of_mem_filter hmem
  simpa using this

/-- An empty `crud.get_chat_by_username` means no row matches the pair. -/
theorem get_chat_by_username_eq_none {db : DB} {u s : String}
    (h : get_chat_by_username db u s = none) :
    (db.chats.filter fun c => c.username == u && c.session_id == s) = [] :=
  List.head?_eq_none_iff.mp h

/-- Effect of the message-creating loop of `crud.create_chat`. -/
theorem foldl_create_chat_message (cid : Nat) (ms : List MessageCreate) :
    ∀ d : DB,
      ms.foldl (fun d m => (create_chat_message d cid m).1) d =
        { d with
          messages := d.messages ++ created_messages d.nextMessageId cid ms,
          nextMessageId := d.nextMessageId + ms.length } := by
  induction ms with
  | nil => intro d; simp [created_messages]
  | cons m ms ih =>
      intro d
      have step : (m :: ms).foldl (fun d m => (create_chat_message d cid m).1) d
          = ms.foldl (fun d m => (create_chat_message d cid m).1)
              ((create_chat_message d cid m).1) := rfl
      rw [step, ih]
      simp [create_chat_message, created_messages, DB.ext_iff]
      omega

/-- Effect of a successful `crud.create_chat`: the chat row is appended,
then the supplied messages are inserted in order with fresh ids. -/
theorem create_chat_ok {db : DB} {cc : ChatCreate}
    (h : get_chat_by_username db cc.username cc.session_id = none) :
    create_chat db cc = .ok
      ({ chats := db.chats ++ [⟨db.nextChatId, cc.username, cc.session_id⟩],
         messages :=
           db.messages ++ created_messages db.nextMessageId db.nextChatId cc.messages,
         nextChatId := db.nextChatId + 1,
         nextMessageId := db.nextMessageId + cc.messages.length },
       ⟨db.nextChatId, cc.username, cc.session_id⟩) := by
  unfold create_chat
  rw [h]
  simp only [Option.isSome_none, Bool.false_eq_true, if_false]
  rw [foldl_create_chat_message]

/-- A 400-conflicting `crud.create_chat`. -/
theorem create_chat_conflict {db : DB} {cc : ChatCreate}
    (h : (get_chat_by_username db cc.username cc.session_id).isSome) :
    create_chat db cc = .error 400 := by
  unfold create_chat
  rw [if_pos h]

/-- Every message row created for the new chat carries its id. -/
theorem filter_created_messages (st cid : Nat) (ms : List MessageCreate) :
    ((created_messages st cid ms).filter fun m => m.owner_id == cid)
      = created_messages st cid ms := by
  induction ms generalizing st with
  | nil => rfl
  | cons m ms ih => simp [created_messages, List.filter_cons, ih]

/-! ### Claim theorems -/

/-- C7: a GET on the fetch-by-identifier or fetch-by-username endpoint with
an absent `X-Session-ID` header fails with a 400 client error; with a
present non-matching header the result is the empty/not-found body
`.ok none`, which is distinct from the 400 error. -/
theorem missing_session_header_rejected (db : DB) (i : Nat) (u : String) :
    api_get_chat_by_id db none i = .error 400
    ∧ api_get_chat_by_username db none u = .error 400
    ∧ (∀ s : String, s ≠ "" →
        (∀ c ∈ db.chats, c.id = i → c.session_id ≠ s) →
          api_get_chat_by_id db (some s) i = .ok none)
    ∧ (Except.error 400 ≠ (Except.ok none : Except Nat (Option ChatOut))) := by
  refine ⟨rfl, rfl, fun s hs hmis => ?_, by simp⟩
  have hnone : get_chat db i s = none := by
    unfold get_chat
    rw [List.head?_eq_none_iff]
    refine List.filter_eq_nil_iff.mpr fun c hc hp => ?_
    simp only [Bool.and_eq_true, beq_iff_eq] at hp
    exact hmis c hc hp.1 hp.2
  simp [api_get_chat_by_id, hs, hnone]

/-- Witness for C7 at a concrete store: wrong-but-present session header
yields the empty body, not an error. -/
theorem missing_session_header_rejected_witness :
    api_get_chat_by_id
      { chats := [{ id := 0, username := "alice", session_id := "s1" }],
        messages := [], nextChatId := 1, nextMessageId := 0 }
      (some "s2") 0 = .ok none :=
  (missing_session_header_rejected _ 0 "alice").2.2.1 "s2" (by decide) (by decide)

/-- C4: any chat returned by a session-scoped fetch carries exactly the
queried session token (so a wrong-but-present token never exposes another
session's chat); when nothing matches, the result is empty; in particular
two chats with the same username but different sessions are mutually
invisible under each other's session scope. -/
theorem session_scoping (db : DB) :
    (∀ (i : Nat) (s : String) (c : Chat), get_chat db i s = some c →
        c.session_id = s ∧ c.id = i ∧ c ∈ db.chats)
    ∧ (∀ (u s : String) (c : Chat), get_chat_by_username db u s = some c →
        c.session_id = s ∧ c.username = u ∧ c ∈ db.chats)
    ∧ (∀ (u s : String), (∀ c ∈ db.chats, c.username = u → c.session_id ≠ s) →
        get_chat_by_username db u s = none)
    ∧ (∀ c1 c2 : Chat, c1 ∈ db.chats → c2 ∈ db.chats →
        c1.session_id ≠ c2.session_id →
          get_chat db c1.id c2.session_id ≠ some c1
          ∧ get_chat_by_username db c1.username c2.session_id ≠ some c1) := by
  refine ⟨?_, ?_, ?_, ?_⟩
  · intro i s c h
    rcases get_chat_eq_some h with ⟨hmem, hid, hsess⟩
    exact ⟨hsess, hid, hmem⟩
  · intro u s c h
    rcases get_chat_by_username_eq_some h with ⟨hmem, hu, hsess⟩
    exact ⟨hsess, hu, hmem⟩
  · intro u s hmis
    unfold get_chat_by_username
    rw [List.head?_eq_none_iff]
    refine List.filter_eq_nil_iff.mpr fun c hc hp => ?_
    simp only [Bool.and_eq_true, beq_iff_eq] at hp
    exact hmis c hc hp.1 hp.2
  · intro c1 c2 _ _ hne
    constructor
    · intro h
      exact hne (get_chat_eq_some h).2.2
    · intro h
      exact hne (get_chat_by_username_eq_some h).2.2

/-- Witness for C4 at a concrete store holding two chats for the same
username under different sessions. -/
theorem session_scoping_witness :
    get_chat
        { chats := [{ id := 0, username := "alice", session_id := "s1" },
                    { id := 1, username := "alice", session_id := "s2" }],
          messages := [], nextChatId := 2, nextMessageId := 0 }
        0 "s2" ≠ some { id := 0, username := "alice", session_id := "s1" }
    ∧ get_chat_by_username
        { chats := [{ id := 0, username := "alice", session_id := "s1" },
                    { id := 1, username := "alice", session_id := "s2" }],
          messages := [], nextChatId := 2, nextMessageId := 0 }
        "alice" "s2" ≠ some { id := 0, username := "alice", session_id := "s1" } :=
  (session_scoping _).2.2.2
    { id := 0, username := "alice", session_id := "s1" }
    { id := 1, username := "alice", session_id := "s2" }
    (by decide) (by decide) (by decide)

/-- C2: the persistence API's create-chat rejects with a 400 conflict when
a chat already exists for the username+session pair; otherwise it appends
the chat row, then inserts each supplied initial message in the order
given with fresh generated ids, and returns the populated chat. -/
theorem api_create_chat_spec (db : DB) (cc : ChatCreate)
    (hfresh : ∀ m ∈ db.messages, m.owner_id ≠ db.nextChatId) :
    ((get_chat_by_username db cc.username cc.session_id).isSome →
        api_create_chat db cc = .error 400)
    ∧ (get_chat_by_username db cc.username cc.session_id = none →
        api_create_chat db cc = .ok
          ({ chats := db.chats
                ++ [{ id := db.nextChatId, username := cc.username,
                      session_id := cc.session_id }],
             messages := db.messages
                ++ created_messages db.nextMessageId db.nextChatId cc.messages,
             nextChatId := db.nextChatId + 1,
             nextMessageId := db.nextMessageId + cc.messages.length },
           { id := db.nextChatId, username := cc.username,
             session_id := cc.session_id,
             messages :=
               created_messages db.nextMessageId db.nextChatId cc.messages })) := by
  constructor
  · intro h
    unfold api_create_chat
    rw [create_chat_conflict h]
  · intro h
    unfold api_create_chat
    rw [create_chat_ok h]
    simp only [Except.ok.injEq, Prod.mk.injEq, true_and]
    simp only [serialize_chat, chat_messages, List.filter_append,
      filter_created_messages, ChatOut.mk.injEq, true_and]
    have hnil : (db.messages.filter fun m => m.owner_id == db.nextChatId) = [] :=
      List.filter_eq_nil_iff.mpr fun m hm => by
        simpa using hfresh m hm
    rw [hnil]
    simp

/-- Witness for C2: creating a chat with two initial messages in a store
that already holds an unrelated chat and message. -/
theorem api_create_chat_spec_witness :
    api_create_chat
        { chats := [{ id := 0, username := "bob", session_id := "s9" }],
          messages := [{ id := 0, content := "x", role := "user",
                         session_id := "s9", owner_id := 0 }],
          nextChatId := 1, nextMessageId := 1 }
        { username := "alice",
          messages := [{ content := "m1", role := "system", session_id := "s1" },
                       { content := "m2", role := "assistant", session_id := "s1" }],
          session_id := "s1" }
      = .ok
        ({ chats := [{ id := 0, username := "bob", session_id := "s9" },
                     { id := 1, username := "alice", session_id := "s1" }],
           messages := [{ id := 0, content := "x", role := "user",
                          session_id := "s9", owner_id := 0 },
                        { id := 1, content := "m1", role := "system",
                          session_id := "s1", owner_id := 1 },
                        { id := 2, content := "m2", role := "assistant",
                          session_id := "s1", owner_id := 1 }],
           nextChatId := 2, nextMessageId := 3 },
         { id := 1, username := "alice", session_id := "s1",
           messages := [{ id := 1, content := "m1", role := "system",
                          session_id := "s1", owner_id := 1 },
                        { id := 2, content := "m2", role := "assistant",
                          session_id := "s1", owner_id := 1 }] }) := by
  have h := (api_create_chat_spec
      { chats := [{ id := 0, username := "bob", session_id := "s9" }],
        messages := [{ id := 0, content := "x", role := "user",
                       session_id := "s9", owner_id := 0 }],
        nextChatId := 1, nextMessageId := 1 }
      { username := "alice",
        messages := [{ content := "m1", role := "system", session_id := "s1" },
                     { content := "m2", role := "assistant", session_id := "s1" }],
        session_id := "s1" }
      (by decide)).2 (by decide)
  exact h

/-- UI create-chat when a chat for the pair already exists: the db-api 400
conflict is absorbed by the fetch-by-username fallback, the store is
unchanged, and the redirect goes to the existing chat's id. -/
theorem ui_create_chat_existing {db : DB} {u s : String} {c : Chat}
    (hs : s ≠ "") (hgu : get_chat_by_username db u s = some c) :
    ui_create_chat db u s = (db, some c.id) := by
  have h400 : create_chat db
      { username := u, messages := [sys_init_msg s, opening_init_msg s],
        session_id := s } = .error 400 :=
    create_chat_conflict (by show (get_chat_by_username db u s).isSome; rw [hgu]; rfl)
  simp [ui_create_chat, api_create_chat, api_get_chat_by_username,
    h400, hs, hgu, serialize_chat]

/-- UI create-chat when no chat for the pair exists: a fresh chat row and
its two initial messages are inserted and the redirect carries its id. -/
theorem ui_create_chat_fresh {db : DB} {u s : String}
    (hgu : get_chat_by_username db u s = none) :
    ui_create_chat db u s =
      ({ chats := db.chats
            ++ [{ id := db.nextChatId, username := u, session_id := s }],
         messages := db.messages
            ++ created_messages db.nextMessageId db.nextChatId
                [sys_init_msg s, opening_init_msg s],
         nextChatId := db.nextChatId + 1,
         nextMessageId := db.nextMessageId + 2 },
       some db.nextChatId) := by
  have hok := @create_chat_ok db
    { username := u, messages := [sys_init_msg s, opening_init_msg s],
      session_id := s }
    (by show get_chat_by_username db u s = none; exact hgu)
  simp only [ui_create_chat, api_create_chat]
  rw [hok]
  simp [serialize_chat, chat_messages, List.filter_append,
    filter_created_messages]

/-- C1: invoking the UI create-chat twice for the same username and session
leaves exactly one chat row for the pair, and the second invocation
redirects to the same chat id as the first (the 400 conflict is absorbed
by the fetch-by-username fallback). -/
theorem ui_create_chat_twice (db : DB) (u s : String)
    (hWF : WF db) (hs : s ≠ "") :
    (∃ i, (ui_create_chat db u s).2 = some i)
    ∧ (ui_create_chat (ui_create_chat db u s).1 u s).2 = (ui_create_chat db u s).2
    ∧ countPair (ui_create_chat (ui_create_chat db u s).1 u s).1 u s = 1 := by
  rcases hWF with ⟨hnd, _, _, _, hpair⟩
  cases hgu : get_chat_by_username db u s with
  | some c =>
      have h1 := ui_create_chat_existing hs hgu
      rcases get_chat_by_username_eq_some hgu with ⟨hmem, huser, hsess⟩
      have hsingle :
          (db.chats.filter fun x => x.username == u && x.session_id == s) = [c] := by
        refine filter_eq_singleton hnd hmem (by simp [huser, hsess]) ?_
        intro x hx hpx
        simp only [Bool.and_eq_true, beq_iff_eq] at hpx
        exact hpair x hx c hmem (hpx.1.trans huser.symm) (hpx.2.trans hsess.symm)
      simp only [h1]
      exact ⟨⟨c.id, rfl⟩, by simp, by simp [countPair, hsingle]⟩
  | none =>
      have h1 := ui_create_chat_fresh hgu
      set c : Chat := { id := db.nextChatId, username := u, session_id := s } with hc
      have hgu1 : get_chat_by_username (ui_create_chat db u s).1 u s = some c := by
        rw [h1]
        unfold get_chat_by_username
        simp only [List.filter_append, get_chat_by_username_eq_none hgu]
        simp [hc]
      have h2 := ui_create_chat_existing hs hgu1
      rw [h2, h1]
      refine ⟨⟨db.nextChatId, rfl⟩, rfl, ?_⟩
      simp only [countPair, h1, List.filter_append,
        get_chat_by_username_eq_none hgu]
      simp [hc]

/-- Witness for C1: two UI create-chat calls on an initially empty store. -/
theorem ui_create_chat_twice_witness :
    (∃ i, (ui_create_chat
        { chats := [], messages := [], nextChatId := 0, nextMessageId := 0 }
        "alice" "s1").2 = some i)
    ∧ (ui_create_chat
        (ui_create_chat
          { chats := [], messages := [], nextChatId := 0, nextMessageId := 0 }
          "alice" "s1").1 "alice" "s1").2
      = (ui_create_chat
          { chats := [], messages := [], nextChatId := 0, nextMessageId := 0 }
          "alice" "s1").2
    ∧ countPair
        (ui_create_chat
          (ui_create_chat
            { chats := [], messages := [], nextChatId := 0, nextMessageId := 0 }
            "alice" "s1").1 "alice" "s1").1 "alice" "s1" = 1 :=
  ui_create_chat_twice
    { chats := [], messages := [], nextChatId := 0, nextMessageId := 0 }
    "alice" "s1" (by decide) (by decide)

/-- The store after step 1 of reply generation: the user message holding
the prompt has been appended via the db-api, nothing else has changed. -/
def gen_step1 (db : DB) (chat_id : Nat) (prompt : String) (session_id : String) :
    DB :=
  (api_create_chat_message db chat_id
    { content := prompt, role := user_role, session_id := session_id }).1

/-- C3: when the upstream completion call times out, generation fails with
the 503 service-unavailable error and the store is left exactly as after
step 1: only the user message holding the prompt was appended, and no
assistant message is persisted from the failed attempt. -/
theorem generation_timeout_503 (db : DB) (cid : Nat) (prompt s : String)
    (out : ChatOut)
    (hvis : api_get_chat_by_id (gen_step1 db cid prompt s) (some s) cid
      = .ok (some out)) :
    create_generation db cid prompt s (fun _ => .timeout)
      = (gen_step1 db cid prompt s, .error503)
    ∧ (gen_step1 db cid prompt s).messages
      = db.messages ++ [{ id := db.nextMessageId, content := prompt,
                          role := user_role, session_id := s, owner_id := cid }]
    ∧ (gen_step1 db cid prompt s).chats = db.chats := by
  refine ⟨?_, by simp [gen_step1, api_create_chat_message, create_chat_message],
    by simp [gen_step1, api_create_chat_message, create_chat_message]⟩
  simp only [create_generation]
  simp only [gen_step1] at hvis
  rw [hvis]
  simp [gen_step1]

/-- Witness for C3 at a concrete store and prompt. -/
theorem generation_timeout_503_witness :
    create_generation
        { chats := [{ id := 0, username := "alice", session_id := "s1" }],
          messages := [], nextChatId := 1, nextMessageId := 0 }
        0 "hello" "s1" (fun _ => .timeout)
      = (gen_step1
          { chats := [{ id := 0, username := "alice", session_id := "s1" }],
            messages := [], nextChatId := 1, nextMessageId := 0 }
          0 "hello" "s1", .error503)
    ∧ (gen_step1
        { chats := [{ id := 0, username := "alice", session_id := "s1" }],
          messages := [], nextChatId := 1, nextMessageId := 0 }
        0 "hello" "s1").messages
      = [] ++ [{ id := 0, content := "hello", role := user_role,
                 session_id := "s1", owner_id := 0 }]
    ∧ (gen_step1
        { chats := [{ id := 0, username := "alice", session_id := "s1" }],
          messages := [], nextChatId := 1, nextMessageId := 0 }
        0 "hello" "s1").chats
      = [{ id := 0, username := "alice", session_id := "s1" }] :=
  generation_timeout_503
    { chats := [{ id := 0, username := "alice", session_id := "s1" }],
      messages := [], nextChatId := 1, nextMessageId := 0 }
    0 "hello" "s1"
    { id := 0, username := "alice", session_id := "s1",
      messages := [{ id := 0, content := "hello", role := user_role,
                     session_id := "s1", owner_id := 0 }] }
    (by rfl)

/-- C6: a successful generation performs the five steps in order: it
appends the user message with the prompt, fetches the full history, hands
exactly that history to the completion call, appends an assistant message
holding the first choice's content, and redirects to the chat page. -/
theorem generation_success_steps (db : DB) (cid : Nat) (prompt s g : String)
    (rest : List String) (lm : List Message → LMResult) (out : ChatOut)
    (hvis : api_get_chat_by_id (gen_step1 db cid prompt s) (some s) cid
      = .ok (some out))
    (hlm : lm out.messages = .ok (g :: rest)) :
    create_generation db cid prompt s lm
      = ((api_create_chat_message (gen_step1 db cid prompt s) cid
            { content := g, role := assistant_role, session_id := s }).1,
         .redirect cid)
    ∧ (create_generation db cid prompt s lm).1.messages
      = db.messages
          ++ [{ id := db.nextMessageId, content := prompt, role := user_role,
                session_id := s, owner_id := cid },
              { id := db.nextMessageId + 1, content := g,
                role := assistant_role, session_id := s, owner_id := cid }]
    ∧ out.messages = chat_messages (gen_step1 db cid prompt s) cid := by
  have key : create_generation db cid prompt s lm
      = ((api_create_chat_message (gen_step1 db cid prompt s) cid
            { content := g, role := assistant_role, session_id := s }).1,
         .redirect cid) := by
    simp only [create_generation]
    simp only [gen_step1] at hvis ⊢
    rw [hvis]
    simp [hlm]
  refine ⟨key, ?_, ?_⟩
  · rw [key]
    simp [gen_step1, api_create_chat_message, create_chat_message]
  · have hs : s ≠ "" := by
      intro h
      rw [h] at hvis
      simp [api_get_chat_by_id] at hvis
    rw [show api_get_chat_by_id (gen_step1 db cid prompt s) (some s) cid
        = .ok ((get_chat (gen_step1 db cid prompt s) cid s).map
            (serialize_chat (gen_step1 db cid prompt s)))
      from by simp [api_get_chat_by_id, hs]] at hvis
    simp only [Except.ok.injEq] at hvis
    rcases Option.map_eq_some'.mp hvis with ⟨c, hc, hser⟩
    rcases get_chat_eq_some hc with ⟨_, hid, _⟩
    rw [← hser]
    simp [serialize_chat, hid]

/-- Witness for C6 at a concrete store, prompt and completion result. -/
theorem generation_success_steps_witness :
    create_generation
        { chats := [{ id := 0, username := "alice", session_id := "s1" }],
          messages := [], nextChatId := 1, nextMessageId := 0 }
        0 "hello" "s1" (fun _ => .ok ["a reply"])
      = ((api_create_chat_message
            (gen_step1
              { chats := [{ id := 0, username := "alice", session_id := "s1" }],
                messages := [], nextChatId := 1, nextMessageId := 0 }
              0 "hello" "s1") 0
            { content := "a reply", role := assistant_role, session_id := "s1" }).1,
         .redirect 0)
    ∧ (create_generation
        { chats := [{ id := 0, username := "alice", session_id := "s1" }],
          messages := [], nextChatId := 1, nextMessageId := 0 }
        0 "hello" "s1" (fun _ => .ok ["a reply"])).1.messages
      = [] ++ [{ id := 0, content := "hello", role := user_role,
                 session_id := "s1", owner_id := 0 },
               { id := 1, content := "a reply", role := assistant_role,
                 session_id := "s1", owner_id := 0 }]
    ∧ ({ id := 0, username := "alice", session_id := "s1",
         messages := [{ id := 0, content := "hello", role := user_role,
                        session_id := "s1", owner_id := 0 }] } : ChatOut).messages
      = chat_messages
          (gen_step1
            { chats := [{ id := 0, username := "alice", session_id := "s1" }],
              messages := [], nextChatId := 1, nextMessageId := 0 }
            0 "hello" "s1") 0 :=
  generation_success_steps
    { chats := [{ id := 0, username := "alice", session_id := "s1" }],
      messages := [], nextChatId := 1, nextMessageId := 0 }
    0 "hello" "s1" "a reply" [] (fun _ => .ok ["a reply"])
    { id := 0, username := "alice", session_id := "s1",
      messages := [{ id := 0, content := "hello", role := user_role,
                     session_id := "s1", owner_id := 0 }] }
    (by rfl) (by rfl)

/-- Rendering a list of messages whose roles are all user or assistant
succeeds and maps each role to its display name in place. -/
theorem render_list_all_known (username : String) (msgs : List Message)
    (h : ∀ m ∈ msgs, m.role = user_role ∨ m.role = assistant_role) :
    render_list username msgs = some (msgs.map fun m =>
      { content := m.content,
        role := if m.role = user_role then username else "JorisBot" }) := by
  induction msgs with
  | nil => rfl
  | cons m ms ih =>
      have iht := ih fun x hx => h x (List.mem_cons_of_mem _ hx)
      rcases h m (List.mem_cons_self m ms) with hu | ha
      · simp [render_list, prettify, hu, iht]
      · have hne : assistant_role ≠ user_role := by decide
        simp [render_list, prettify, ha, hne, iht]

/-- C5: appending a message to a chat places it after all previously
appended messages of that chat; the rendered page drops system-role
messages (while they stay in the fetched, persisted history), maps the
user role to the stored username and the assistant role to the fixed bot
name, and keeps the original insertion order. -/
theorem chat_page_rendering (db : DB) (cid : Nat) (s : String) (out : ChatOut)
    (hvis : api_get_chat_by_id db (some s) cid = .ok (some out))
    (hroles : ∀ m ∈ out.messages,
      m.role = user_role ∨ m.role = assistant_role ∨ m.role = system_role) :
    get_chat_page db cid s =
      some { messages :=
              (out.messages.filter fun m => m.role != system_role).map
                fun m => { content := m.content,
                           role := if m.role = user_role then out.username
                                   else "JorisBot" },
             chat_id := cid }
    ∧ (∀ (d : DB) (i : Nat) (m : MessageCreate),
        chat_messages ((create_chat_message d i m).1) i
          = chat_messages d i
              ++ [{ id := d.nextMessageId, content := m.content, role := m.role,
                    session_id := m.session_id, owner_id := i }]) := by
  constructor
  · have hall : ∀ m ∈ (out.messages.filter fun m => m.role != system_role),
        m.role = user_role ∨ m.role = assistant_role := by
      intro m hm
      have h1 := List.mem_of_mem_filter hm
      have h2 := List.of_mem_filter hm
      simp only [bne_iff_ne, ne_eq] at h2
      rcases hroles m h1 with h | h | h
      · exact Or.inl h
      · exact Or.inr h
      · exact absurd h h2
    have hrender := render_list_all_known out.username
      (out.messages.filter fun m => m.role != system_role) hall
    simp only [get_chat_page]
    rw [hvis]
    simp [render_messages, hrender]
  · intro d i m
    simp [chat_messages, create_chat_message, List.filter_append]

/-- Witness for C5: page rendering of a store holding a system message,
an assistant greeting and a user prompt. -/
theorem chat_page_rendering_witness :
    get_chat_page
        { chats := [{ id := 0, username := "alice", session_id := "s1" }],
          messages := [{ id := 0, content := "sys", role := "system",
                         session_id := "s1", owner_id := 0 },
                       { id := 1, content := "hi", role := "assistant",
                         session_id := "s1", owner_id := 0 },
                       { id := 2, content := "hello", role := "user",
                         session_id := "s1", owner_id := 0 }],
          nextChatId := 1, nextMessageId := 3 } 0 "s1" =
      some { messages :=
              (([{ id := 0, content := "sys", role := "system",
                   session_id := "s1", owner_id := 0 },
                 { id := 1, content := "hi", role := "assistant",
                   session_id := "s1", owner_id := 0 },
                 { id := 2, content := "hello", role := "user",
                   session_id := "s1", owner_id := 0 }] : List Message).filter
                  fun m => m.role != system_role).map
                fun m => { content := m.content,
                           role := if m.role = user_role then "alice"
                                   else "JorisBot" },
             chat_id := 0 } :=
  (chat_page_rendering
    { chats := [{ id := 0, username := "alice", session_id := "s1" }],
      messages := [{ id := 0, content := "sys", role := "system",
                     session_id := "s1", owner_id := 0 },
                   { id := 1, content := "hi", role := "assistant",
                     session_id := "s1", owner_id := 0 },
                   { id := 2, content := "hello", role := "user",
                     session_id := "s1", owner_id := 0 }],
      nextChatId := 1, nextMessageId := 3 } 0 "s1"
    { id := 0, username := "alice", session_id := "s1",
      messages := [{ id := 0, content := "sys", role := "system",
                     session_id := "s1", owner_id := 0 },
                   { id := 1, content := "hi", role := "assistant",
                     session_id := "s1", owner_id := 0 },
                   { id := 2, content := "hello", role := "user",
                     session_id := "s1", owner_id := 0 }] }
    (by rfl) (by decide)).1

/-- The `prettify` dict lookup succeeds exactly on the three configured
role labels. -/
theorem prettify_isSome_iff (username : String) (role : String) :
    (prettify username role).isSome
      ↔ (role = user_role ∨ role = assistant_role ∨ role = system_role) := by
  have hau : assistant_role ≠ user_role := by decide
  have hsu : system_role ≠ user_role := by decide
  have hsa : system_role ≠ assistant_role := by decide
  unfold prettify
  by_cases h1 : role = user_role <;> by_cases h2 : role = assistant_role <;>
    by_cases h3 : role = system_role <;> simp [h1, h2, h3, hau, hsu, hsa]

/-- The rendering loop succeeds exactly when every role to be displayed is
in the `prettify` dict. -/
theorem render_list_isSome_iff (username : String) (msgs : List Message) :
    (render_list username msgs).isSome
      ↔ ∀ m ∈ msgs, (prettify username m.role).isSome := by
  induction msgs with
  | nil => simp [render_list]
  | cons m ms ih =>
      cases hp : prettify username m.role with
      | none => simp [render_list, hp, List.forall_mem_cons]
      | some r =>
          have hstep : (render_list username (m :: ms)).isSome
              = (render_list username ms).isSome := by
            simp only [render_list, hp]
            cases render_list username ms <;> rfl
          rw [hstep, ih, List.forall_mem_cons]
          simp [hp]

/-- C10: with the chat visible, the page render is defined exactly when
every non-system message carries one of the configured user or assistant
labels, while the persistence API's create-message operation accepts any
string as a role and stores it verbatim — so a message persisted with any
other role makes the page render fail instead of returning a page. -/
theorem page_render_requires_known_roles (db : DB) (cid : Nat) (s : String)
    (out : ChatOut)
    (hvis : api_get_chat_by_id db (some s) cid = .ok (some out)) :
    ((get_chat_page db cid s).isSome
      ↔ ∀ m ∈ out.messages, m.role ≠ system_role →
          (m.role = user_role ∨ m.role = assistant_role))
    ∧ (∀ m : MessageCreate,
        (api_create_chat_message db cid m).2.role = m.role
        ∧ (api_create_chat_message db cid m).1.messages
            = db.messages
              ++ [{ id := db.nextMessageId, content := m.content,
                    role := m.role, session_id := m.session_id,
                    owner_id := cid }]) := by
  constructor
  · have hpage : (get_chat_page db cid s).isSome
        = (render_messages out.username out.messages).isSome := by
      simp only [get_chat_page]
      rw [hvis]
      cases hr : render_messages out.username out.messages <;> simp [hr]
    rw [hpage]
    unfold render_messages
    rw [render_list_isSome_iff]
    constructor
    · intro h m hm hns
      have hmem : m ∈ out.messages.filter fun m => m.role != system_role :=
        List.mem_filter.mpr ⟨hm, by simp [hns]⟩
      rcases (prettify_isSome_iff _ _).mp (h m hmem) with h' | h' | h'
      · exact Or.inl h'
      · exact Or.inr h'
      · exact absurd h' hns
    · intro h m hm
      have h1 := List.mem_of_mem_filter hm
      have h2 := List.of_mem_filter hm
      simp only [bne_iff_ne, ne_eq] at h2
      rcases h m h1 h2 with h' | h'
      · exact (prettify_isSome_iff _ _).mpr (Or.inl h')
      · exact (prettify_isSome_iff _ _).mpr (Or.inr (Or.inl h'))
  · intro m
    exact ⟨rfl, by simp [api_create_chat_message, create_chat_message]⟩

/-- Witness for C10: a persisted message with the unconfigured role
"banana" makes the page render undefined for its chat. -/
theorem page_render_requires_known_roles_witness :
    ¬ (get_chat_page
        { chats := [{ id := 0, username := "alice", session_id := "s1" }],
          messages := [{ id := 0, content := "x", role := "banana",
                         session_id := "s1", owner_id := 0 }],
          nextChatId := 1, nextMessageId := 1 } 0 "s1").isSome := by
  intro hsome
  have h := ((page_render_requires_known_roles
      { chats := [{ id := 0, username := "alice", session_id := "s1" }],
        messages := [{ id := 0, content := "x", role := "banana",
                       session_id := "s1", owner_id := 0 }],
        nextChatId := 1, nextMessageId := 1 } 0 "s1"
      { id := 0, username := "alice", session_id := "s1",
        messages := [{ id := 0, content := "x", role := "banana",
                       session_id := "s1", owner_id := 0 }] }
      (by rfl)).1.mp hsome)
  have hb := h { id := 0, content := "x", role := "banana",
                 session_id := "s1", owner_id := 0 } (by decide) (by decide)
  revert hb
  decide

/-- C9: under the store invariants, fetching a chat by its identifier and
fetching it by its username under the same session return the same chat,
hence identical message content in identical order. -/
theorem fetch_by_id_and_username_agree (db : DB) (c : Chat)
    (hWF : WF db) (hc : c ∈ db.chats) :
    get_chat db c.id c.session_id = some c
    ∧ get_chat_by_username db c.username c.session_id = some c
    ∧ (get_chat db c.id c.session_id).map (serialize_chat db)
        = (get_chat_by_username db c.username c.session_id).map
            (serialize_chat db) := by
  rcases hWF with ⟨hnd, hidnd, _, _, hpair⟩
  have h1 : get_chat db c.id c.session_id = some c := by
    have hs := filter_eq_singleton (l := db.chats)
      (p := fun x => x.id == c.id && x.session_id == c.session_id)
      hnd hc (by simp) ?_
    · unfold get_chat
      rw [hs]
      rfl
    · intro x hx hpx
      simp only [Bool.and_eq_true, beq_iff_eq] at hpx
      exact List.inj_on_of_nodup_map hidnd hx hc hpx.1
  have h2 : get_chat_by_username db c.username c.session_id = some c := by
    have hs := filter_eq_singleton (l := db.chats)
      (p := fun x => x.username == c.username && x.session_id == c.session_id)
      hnd hc (by simp) ?_
    · unfold get_chat_by_username
      rw [hs]
      rfl
    · intro x hx hpx
      simp only [Bool.and_eq_true, beq_iff_eq] at hpx
      exact hpair x hx c hc hpx.1 hpx.2
  exact ⟨h1, h2, by rw [h1, h2]⟩

/-- Witness for C9 at a concrete store with two chats and interleaved
messages. -/
theorem fetch_by_id_and_username_agree_witness :
    get_chat
        { chats := [{ id := 0, username := "bob", session_id := "s9" },
                    { id := 1, username := "alice", session_id := "s1" }],
          messages := [{ id := 0, content := "a", role := "user",
                         session_id := "s9", owner_id := 0 },
                       { id := 1, content := "b", role := "user",
                         session_id := "s1", owner_id := 1 }],
          nextChatId := 2, nextMessageId := 2 }
        1 "s1" = some { id := 1, username := "alice", session_id := "s1" }
    ∧ get_chat_by_username
        { chats := [{ id := 0, username := "bob", session_id := "s9" },
                    { id := 1, username := "alice", session_id := "s1" }],
          messages := [{ id := 0, content := "a", role := "user",
                         session_id := "s9", owner_id := 0 },
                       { id := 1, content := "b", role := "user",
                         session_id := "s1", owner_id := 1 }],
          nextChatId := 2, nextMessageId := 2 }
        "alice" "s1" = some { id := 1, username := "alice", session_id := "s1" }
    ∧ (get_chat
        { chats := [{ id := 0, username := "bob", session_id := "s9" },
                    { id := 1, username := "alice", session_id := "s1" }],
          messages := [{ id := 0, content := "a", role := "user",
                         session_id := "s9", owner_id := 0 },
                       { id := 1, content := "b", role := "user",
                         session_id := "s1", owner_id := 1 }],
          nextChatId := 2, nextMessageId := 2 }
        1 "s1").map (serialize_chat
          { chats := [{ id := 0, username := "bob", session_id := "s9" },
                      { id := 1, username := "alice", session_id := "s1" }],
            messages := [{ id := 0, content := "a", role := "user",
                           session_id := "s9", owner_id := 0 },
                         { id := 1, content := "b", role := "user",
                           session_id := "s1", owner_id := 1 }],
            nextChatId := 2, nextMessageId := 2 })
      = (get_chat_by_username
          { chats := [{ id := 0, username := "bob", session_id := "s9" },
                      { id := 1, username := "alice", session_id := "s1" }],
            messages := [{ id := 0, content := "a", role := "user",
                           session_id := "s9", owner_id := 0 },
                         { id := 1, content := "b", role := "user",
                           session_id := "s1", owner_id := 1 }],
            nextChatId := 2, nextMessageId := 2 }
          "alice" "s1").map (serialize_chat
            { chats := [{ id := 0, username := "bob", session_id := "s9" },
                        { id := 1, username := "alice", session_id := "s1" }],
              messages := [{ id := 0, content := "a", role := "user",
                             session_id := "s9", owner_id := 0 },
                           { id := 1, content := "b", role := "user",
                             session_id := "s1", owner_id := 1 }],
              nextChatId := 2, nextMessageId := 2 }) :=
  fetch_by_id_and_username_agree
    { chats := [{ id := 0, username := "bob", session_id := "s9" },
                { id := 1, username := "alice", session_id := "s1" }],
      messages := [{ id := 0, content := "a", role := "user",
                     session_id := "s9", owner_id := 0 },
                   { id := 1, content := "b", role := "user",
                     session_id := "s1", owner_id := 1 }],
      nextChatId := 2, nextMessageId := 2 }
    { id := 1, username := "alice", session_id := "s1" }
    (by decide) (by decide)

/-- Counterexample to C8 as stated: `crud.create_chat_message` copies the
session identifier out of the request body with no check against the
owning chat, so creating a message with session "s2" for a chat owned by
session "s1" breaks the denormalization invariant. -/
theorem message_session_mismatch_possible :
    MsgSessionInv
      { chats := [{ id := 0, username := "alice", session_id := "s1" }],
        messages := [], nextChatId := 1, nextMessageId := 0 }
    ∧ ¬ MsgSessionInv
        (create_chat_message
          { chats := [{ id := 0, username := "alice", session_id := "s1" }],
            messages := [], nextChatId := 1, nextMessageId := 0 }
          0 { content := "hi", role := "user", session_id := "s2" }).1 := by
  constructor
  · intro m hm
    cases hm
  · intro h
    have := h
      { id := 0, content := "hi", role := "user", session_id := "s2",
        owner_id := 0 }
      (by decide)
      { id := 0, username := "alice", session_id := "s1" }
      (by decide) rfl
    revert this
    decide

/-- C8 amended: a created message's session identifier is the one supplied
in the request, with no enforcement against the owning chat; the
denormalization invariant is preserved exactly by those message-creating
calls whose request session identifier matches the owning chat's — which
holds for all messages the UI flows create for a chat of their own
session. -/
theorem message_session_copied_from_request (db : DB) (cid : Nat)
    (m : MessageCreate) (hInv : MsgSessionInv db)
    (hmatch : ∀ c ∈ db.chats, c.id = cid → m.session_id = c.session_id) :
    (create_chat_message db cid m).2.session_id = m.session_id
    ∧ MsgSessionInv (create_chat_message db cid m).1 := by
  refine ⟨rfl, ?_⟩
  intro msg hmsg c hc hid
  simp only [create_chat_message, List.mem_append, List.mem_singleton] at hmsg
  rcases hmsg with h | h
  · exact hInv msg h c hc hid
  · subst h
    exact hmatch c hc (by simpa using hid)

/-- Witness for the amended C8: a matching-session message creation keeps
the invariant. -/
theorem message_session_copied_from_request_witness :
    (create_chat_message
      { chats := [{ id := 0, username := "alice", session_id := "s1" }],
        messages := [], nextChatId := 1, nextMessageId := 0 }
      0 { content := "hi", role := "user", session_id := "s1" }).2.session_id
      = "s1"
    ∧ MsgSessionInv
        (create_chat_message
          { chats := [{ id := 0, username := "alice", session_id := "s1" }],
            messages := [], nextChatId := 1, nextMessageId := 0 }
          0 { content := "hi", role := "user", session_id := "s1" }).1 :=
  message_session_copied_from_request
    { chats := [{ id := 0, username := "alice", session_id := "s1" }],
      messages := [], nextChatId := 1, nextMessageId := 0 }
    0 { content := "hi", role := "user", session_id := "s1" }
    (by intro m hm; cases hm) (by decide)

end ChatApp
